import Mathlib

/-!
Shallow embedding of `src/TGEapp.py`: a dashboard that fetches expense,
proposition and profile records for two federal deputies from the open-data
API of the Brazilian Chamber, aggregates the expenses, and renders a
side-by-side comparison.  Network effects are modelled by passing the
response of each HTTP request explicitly; machine floats are modelled by
rationals.  Definitions mirror the Python source; theorems settle the
specification claims.
-/

namespace TGEapp

/-- A JSON value that can appear in the `valorDocumento` field of an expense
record: a number, a string, or `null` (also covering an absent field, which
pandas reads as `NaN`). -/
inductive AmountVal : Type
  | num (q : ℚ)
  | str (s : String)
  | null
deriving DecidableEq

/-- Splits a character list at the first dot, if any. -/
def splitAtDot : List Char → List Char × Option (List Char)
  | [] => ([], none)
  | c :: r =>
      if c = '.' then ([], some r)
      else
        let p := splitAtDot r
        (c :: p.1, p.2)

/-- Numeric value of a list of decimal digit characters, most significant
first. -/
def digitsToNat (l : List Char) : ℕ :=
  l.foldl (fun a c => 10 * a + (c.toNat - 48)) 0

/-- Parses an unsigned decimal literal (digits, optionally with a fractional
part after a dot) into a rational, as `pd.to_numeric` does for strings. -/
def parseUnsigned (l : List Char) : Option ℚ :=
  match splitAtDot l with
  | (ip, none) =>
      if ip ≠ [] ∧ ip.all Char.isDigit then some (digitsToNat ip) else none
  | (ip, some fp) =>
      if (ip ≠ [] ∨ fp ≠ []) ∧ ip.all Char.isDigit ∧ fp.all Char.isDigit then
        some ((digitsToNat ip : ℚ) + (digitsToNat fp : ℚ) / (10 : ℚ) ^ fp.length)
      else none

/-- Parses a signed decimal string into a rational; `none` models an
unparsable string. -/
def parseDecimal (s : String) : Option ℚ :=
  match s.toList with
  | '-' :: r => (parseUnsigned r).map Neg.neg
  | '+' :: r => parseUnsigned r
  | l => parseUnsigned l

/-- Model of `pd.to_numeric(x, errors='coerce').fillna(0)` applied to one
amount value: numbers pass through, parsable strings are parsed, and a
missing, null or unparsable amount is coerced to `0`. -/
def valorCoagido : AmountVal → ℚ
  | .num q => q
  | .str s => (parseDecimal s).getD 0
  | .null => 0

/-- A raw expense record as returned by the `despesas` endpoint; only the
fields the program touches are modelled. -/
structure ExpenseRecord : Type where
  dataDocumento : String
  tipoDespesa : String
  nomeFornecedor : String
  valorDocumento : AmountVal
deriving DecidableEq

/-- An expense record after the aggregation engine has coerced the amount
column to a number. -/
structure CleanedRecord : Type where
  dataDocumento : String
  tipoDespesa : String
  nomeFornecedor : String
  valorDocumento : ℚ
deriving DecidableEq

/-- Coercion of one row of the expense table: all fields are kept and the
amount is replaced by its coerced numeric value. -/
def cleanRecord (r : ExpenseRecord) : CleanedRecord :=
  ⟨r.dataDocumento, r.tipoDespesa, r.nomeFornecedor, valorCoagido r.valorDocumento⟩

/-- Model of `calcular_total_despesas`: Python `if not despesas` is true for
both `None` (the failure sentinel) and the empty list, giving total `0` and
an empty table; otherwise the amount column is coerced and summed. -/
def calcular_total_despesas : Option (List ExpenseRecord) → ℚ × List CleanedRecord
  | none => (0, [])
  | some [] => (0, [])
  | some (r :: rs) =>
      let df := (r :: rs).map cleanRecord
      ((df.map CleanedRecord.valorDocumento).sum, df)

/-- Decimal digit character for `n % 10`. -/
def digitChar (n : ℕ) : Char :=
  Char.ofNat (48 + n % 10)

/-- Decimal digits, least significant first, with explicit recursion fuel;
`0` gives the empty list. -/
def natDigitsRevAux : ℕ → ℕ → List Char
  | 0, _ => []
  | _ + 1, 0 => []
  | fuel + 1, n + 1 => digitChar ((n + 1) % 10) :: natDigitsRevAux fuel ((n + 1) / 10)

/-- Decimal digits of a positive number, least significant first; `0` gives
the empty list.  The number itself is enough fuel, since dividing a positive
number by ten strictly decreases it. -/
def natDigitsRev (n : ℕ) : List Char :=
  natDigitsRevAux n n

/-- Decimal digits of a natural number, least significant first, never
empty. -/
def lsdDigits (n : ℕ) : List Char :=
  if n = 0 then ['0'] else natDigitsRev n

/-- Inserts Python's thousands separator `,` every three characters of a
least-significant-first digit list, as `format(v, ',')` groups the integer
part. -/
def groupRev : List Char → List Char
  | a :: b :: c :: d :: rest => a :: b :: c :: ',' :: groupRev (d :: rest)
  | l => l

/-- Rounds a rational to the nearest integer, ties to the even integer, the
rounding Python applies when formatting with two decimal places. -/
def roundHalfEven (q : ℚ) : ℤ :=
  if Int.fract q < 1 / 2 then ⌊q⌋
  else if 1 / 2 < Int.fract q then ⌊q⌋ + 1
  else if ⌊q⌋ % 2 = 0 then ⌊q⌋ else ⌊q⌋ + 1

/-- Characters of the unsigned body of `format(v, ',.2f')`: the grouped
integer part, a dot, and exactly two fraction digits. -/
def pyUnsigned (ip fp : ℕ) : List Char :=
  (groupRev (lsdDigits ip)).reverse ++ '.' :: [digitChar (fp / 10), digitChar fp]

/-- Characters of the Python format expression applied in
`formatar_moeda`'s fallback branch: sign, grouped integer part with `,`,
dot, two fraction digits. -/
def pyFmt (v : ℚ) : List Char :=
  let cn := (roundHalfEven (|v| * 100)).toNat
  (if v < 0 then ['-'] else []) ++ pyUnsigned (cn / 100) (cn % 100)

/-- Model of Python `str.replace` with single-character arguments. -/
def replaceCharL (l : List Char) (a b : Char) : List Char :=
  l.map (fun c => if c = a then b else c)

/-- Model of `formatar_moeda`'s deterministic fallback branch: build the
string with `,` thousands grouping and `.` decimal point, then perform the
three separator-swapping replacements of the source. -/
def formatar_moeda (valor : ℚ) : String :=
  String.mk
    (replaceCharL
      (replaceCharL (replaceCharL ('R' :: '$' :: ' ' :: pyFmt valor) ',' 'X') '.' ',')
      'X' '.')

/-- Simultaneous swap of the two separator characters, the net effect of the
source's three-step replace chain on strings without an `X`. -/
def sepSwap (c : Char) : Char :=
  if c = ',' then '.' else if c = '.' then ',' else c

/-- Checks a reversed grouped integer part: groups of exactly three digits
separated by `.`, the leading (final) group of one to three digits. -/
def gruposValidosRev : List Char → Bool
  | [] => false
  | [a] => a.isDigit
  | [a, b] => a.isDigit && b.isDigit
  | [a, b, c] => a.isDigit && b.isDigit && c.isDigit
  | a :: b :: c :: d :: resto =>
      a.isDigit && b.isDigit && c.isDigit && (d == '.') && gruposValidosRev resto

/-- Checks an unsigned currency body: grouped integer part, `,`, and exactly
two fraction digits. -/
def numeroValido (l : List Char) : Bool :=
  match l.reverse with
  | b :: a :: c :: resto => a.isDigit && b.isDigit && (c == ',') && gruposValidosRev resto
  | _ => false

/-- Checks the body after `R$ `: an optional minus sign followed by a valid
unsigned currency body. -/
def corpoValido (l : List Char) : Bool :=
  numeroValido l || ((l.head? == some '-') && numeroValido l.tail)

/-- Checks the full claimed output pattern
`R$ <integer part grouped by .>,<2-digit fraction>` with an optional sign. -/
def matchesCurrencyPattern (s : String) : Bool :=
  (s.data.take 3 == ['R', '$', ' ']) && corpoValido (s.data.drop 3)

/-- Result of one HTTP round-trip: the parsed JSON body of a 2xx response,
or an error covering transport failures and non-2xx statuses (which
`raise_for_status` converts into a caught exception). -/
inductive NetResult (α : Type) : Type
  | ok (corpo : α)
  | erro
deriving DecidableEq

/-- A JSON response body: the payload sits in an optional `dados` field,
read with `.get("dados", default)`. -/
structure ApiJson (α : Type) : Type where
  dados : Option α
deriving DecidableEq

/-- A deputy as returned by the search endpoint; only the fields the program
reads are modelled. -/
structure Deputado : Type where
  id : ℕ
  nome : String
  siglaPartido : String
  siglaUf : String
deriving DecidableEq

/-- A proposition record; the program only reads these fields and the list
length. -/
structure Proposicao : Type where
  siglaTipo : String
  numero : ℕ
  ano : ℤ
  ementa : String
  uri : String
deriving DecidableEq

/-- The `ultimoStatus` object inside a deputy profile. -/
structure UltimoStatus : Type where
  situacao : String
  gabineteNumero : String
deriving DecidableEq

/-- A deputy profile; `ultimoStatus := none` models the empty dictionary the
source falls back to. -/
structure Detalhes : Type where
  ultimoStatus : Option UltimoStatus
deriving DecidableEq

/-- The empty profile dictionary `{}`. -/
def Detalhes.vazio : Detalhes :=
  ⟨none⟩

/-- Model of `buscar_deputados`: an empty name short-circuits to the empty
list before any request; a request error becomes the `none` sentinel; a 2xx
response yields its `dados` payload, defaulting to the empty list. -/
def buscar_deputados (nome : String) (resp : NetResult (ApiJson (List Deputado))) :
    Option (List Deputado) :=
  if nome = "" then some []
  else
    match resp with
    | .ok j => some (j.dados.getD [])
    | .erro => none

/-- Number of HTTP requests `buscar_deputados` issues: the empty-name guard
returns before `requests.get` is reached. -/
def buscar_deputados_requisicoes (nome : String) : ℕ :=
  if nome = "" then 0 else 1

/-- A query-string parameter value. -/
inductive ParamVal : Type
  | str (v : String)
  | int (v : ℤ)
deriving DecidableEq

/-- The literal `"DESC"` ordering value. -/
def ordemDESC : String := "DESC"

/-- The literal `"dataDocumento"` sort key. -/
def chaveDataDocumento : String := "dataDocumento"

/-- The literal `"ano"` parameter key. -/
def chaveAno : String := "ano"

/-- The literal `"ordem"` parameter key. -/
def chaveOrdem : String := "ordem"

/-- The literal `"ordenarPor"` parameter key. -/
def chaveOrdenarPor : String := "ordenarPor"

/-- The literal `"itens"` parameter key. -/
def chaveItens : String := "itens"

/-- The literal `"mes"` parameter key. -/
def chaveMes : String := "mes"

/-- Model of the query-parameter dictionary `obter_despesas_deputado`
builds: the base parameters always, and `mes` only when Python's
`if mes and 1 <= mes <= 12` holds, whose first conjunct is the truthiness
of `mes` (false for `None` and for `0`). -/
def obter_despesas_params (ano : ℤ) (mes : Option ℤ) (limite : ℤ) :
    List (String × ParamVal) :=
  let params := [(chaveAno, ParamVal.int ano), (chaveOrdem, ParamVal.str ordemDESC),
    (chaveOrdenarPor, ParamVal.str chaveDataDocumento), (chaveItens, ParamVal.int limite)]
  match mes with
  | none => params
  | some m =>
      if m ≠ 0 ∧ 1 ≤ m ∧ m ≤ 12 then params ++ [(chaveMes, ParamVal.int m)]
      else params

/-- The environment a comparison runs against: the response each endpoint
returns for a given deputy identifier (the year, month and page size of the
run are fixed by the selections). -/
structure Oraculo : Type where
  despesas : ℕ → List (String × ParamVal) → NetResult (ApiJson (List ExpenseRecord))
  proposicoes : ℕ → NetResult (ApiJson (List Proposicao))
  detalhes : ℕ → NetResult (ApiJson Detalhes)

/-- Model of `obter_despesas_deputado`: builds the parameter dictionary,
issues the request, and returns the `dados` payload on success or the
`none` sentinel on a request error. -/
def obter_despesas_deputado (o : Oraculo) (idDeputado : ℕ) (ano : ℤ)
    (mes : Option ℤ) (limite : ℤ) : Option (List ExpenseRecord) :=
  match o.despesas idDeputado (obter_despesas_params ano mes limite) with
  | .ok j => some (j.dados.getD [])
  | .erro => none

/-- Model of `obter_proposicoes_deputado`: the `dados` payload on success,
the `none` sentinel on a request error (after a non-blocking warning). -/
def obter_proposicoes_deputado (o : Oraculo) (idDeputado : ℕ) :
    Option (List Proposicao) :=
  match o.proposicoes idDeputado with
  | .ok j => some (j.dados.getD [])
  | .erro => none

/-- Model of `obter_detalhes_deputado`: the `dados` payload on success and
the empty dictionary both when `dados` is absent and on a request error, so
a profile failure never surfaces as a sentinel. -/
def obter_detalhes_deputado (o : Oraculo) (idDeputado : ℕ) : Detalhes :=
  match o.detalhes idDeputado with
  | .ok j => j.dados.getD Detalhes.vazio
  | .erro => Detalhes.vazio

/-- Outcome of the textual expense analysis of the derivation phase:
deputy 1 or deputy 2 spent strictly more (with the absolute difference and,
when the smaller total is positive, the percentage), or the totals tie.
A `none` percentage is the source's `"N/A"`. -/
inductive Analise : Type
  | maior1 (diferenca : ℚ) (percentual : Option ℚ)
  | maior2 (diferenca : ℚ) (percentual : Option ℚ)
  | empate
deriving DecidableEq

/-- Model of the derivation phase over the two expense totals (source lines
311-330): `diferenca = abs(total1 - total2)`, the strictly higher total
wins, and the percentage is computed against the smaller total only when
that total is positive. -/
def analise_despesas (total1 total2 : ℚ) : Analise :=
  let diferenca := |total1 - total2|
  if total1 > total2 then
    Analise.maior1 diferenca
      (if total2 > 0 then some ((total1 - total2) / total2 * 100) else none)
  else if total2 > total1 then
    Analise.maior2 diferenca
      (if total1 > 0 then some ((total2 - total1) / total1 * 100) else none)
  else
    Analise.empate

/-- The percentage the analysis reports, if any; `none` covers both the
source's `"N/A"` and the tie branch, which shows no percentage. -/
def percentualDe : Analise → Option ℚ
  | .maior1 _ p => p
  | .maior2 _ p => p
  | .empate => none

/-- What `comparar_deputados_ui` renders after the selection phase: a
waiting message, the same-deputy validation error, the expense connectivity
error, or the full comparison payload. -/
inductive Resultado : Type
  | aguardandoSelecao
  | mesmoDeputado
  | erroConexao
  | comparacao (total1 total2 : ℚ) (df1 df2 : List CleanedRecord)
      (numProposicoes1 numProposicoes2 : ℕ)
      (detalhes1 detalhes2 : Detalhes) (analise : Analise)

/-- One HTTP request the orchestrator issues, attributed to its endpoint
and deputy. -/
inductive Requisicao : Type
  | despesas (idDeputado : ℕ)
  | proposicoes (idDeputado : ℕ)
  | detalhes (idDeputado : ℕ)
deriving DecidableEq

/-- Model of the post-selection part of `comparar_deputados_ui`: the guard
on missing selections, the same-identifier validation gate (before any
fetch), the six fetches, the aggregation, the expense sentinel check, and
the derivation.  The second component lists the requests issued. -/
def comparar_deputados (sel1 sel2 : Option Deputado) (ano : ℤ) (mes : Option ℤ)
    (o : Oraculo) : Resultado × List Requisicao :=
  match sel1, sel2 with
  | some d1, some d2 =>
      if d1.id = d2.id then (Resultado.mesmoDeputado, [])
      else
        let despesas1_raw := obter_despesas_deputado o d1.id ano mes 1000
        let despesas2_raw := obter_despesas_deputado o d2.id ano mes 1000
        let r1 := calcular_total_despesas despesas1_raw
        let r2 := calcular_total_despesas despesas2_raw
        let proposicoes1 := obter_proposicoes_deputado o d1.id
        let proposicoes2 := obter_proposicoes_deputado o d2.id
        let numProposicoes1 := match proposicoes1 with | some l => l.length | none => 0
        let numProposicoes2 := match proposicoes2 with | some l => l.length | none => 0
        let detalhes1 := obter_detalhes_deputado o d1.id
        let detalhes2 := obter_detalhes_deputado o d2.id
        let reqs := [Requisicao.despesas d1.id, Requisicao.despesas d2.id,
          Requisicao.proposicoes d1.id, Requisicao.proposicoes d2.id,
          Requisicao.detalhes d1.id, Requisicao.detalhes d2.id]
        if despesas1_raw = none ∨ despesas2_raw = none then
          (Resultado.erroConexao, reqs)
        else
          (Resultado.comparacao r1.1 r2.1 r1.2 r2.2 numProposicoes1 numProposicoes2
            detalhes1 detalhes2 (analise_despesas r1.1 r2.1), reqs)
  | _, _ => (Resultado.aguardandoSelecao, [])

/-- Whether a result is a completed comparison. -/
def Resultado.eComparacao : Resultado → Bool
  | .comparacao _ _ _ _ _ _ _ _ _ => true
  | _ => false

/-- The first deputy's proposition count of a completed comparison. -/
def Resultado.numProp1 : Resultado → Option ℕ
  | .comparacao _ _ _ _ n1 _ _ _ _ => some n1
  | _ => none

/-- The second deputy's proposition count of a completed comparison. -/
def Resultado.numProp2 : Resultado → Option ℕ
  | .comparacao _ _ _ _ _ n2 _ _ _ => some n2
  | _ => none

/-- The first deputy's profile of a completed comparison. -/
def Resultado.perfil1 : Resultado → Option Detalhes
  | .comparacao _ _ _ _ _ _ p1 _ _ => some p1
  | _ => none

/-- The second deputy's profile of a completed comparison. -/
def Resultado.perfil2 : Resultado → Option Detalhes
  | .comparacao _ _ _ _ _ _ _ p2 _ => some p2
  | _ => none

/-- Modelled from the spec: the memoization layer of `@st.cache_data`
(Streamlit library code, not part of this repository's sources) that wraps
each API operation, keyed by the call parameters, with a fixed one-hour
time-to-live from insertion.  An entry is a key with its cached value and
insertion time in seconds. -/
structure Cache (κ α : Type) : Type where
  entries : List (κ × α × ℕ)

/-- Modelled from the spec: the one-hour time-to-live, in seconds. -/
def ttlSegundos : ℕ := 3600

/-- Modelled from the spec: a cache lookup at wall-clock time `agora`
returns the stored value while the entry is younger than the TTL and
otherwise behaves as a miss. -/
def cacheLookup {κ α : Type} [DecidableEq κ] (c : Cache κ α) (k : κ)
    (agora : ℕ) : Option α :=
  match c.entries.find? (fun e => e.1 = k) with
  | some e => if agora < e.2.2 + ttlSegundos then some e.2.1 else none
  | none => none

/-- Modelled from the spec: one call through the memoization layer.  A hit
returns the cached value with no network call; a miss calls the wrapped
operation, stores whatever it returned, and reports that a network call was
made (the third component). -/
def chamadaMemoizada {κ α : Type} [DecidableEq κ] (c : Cache κ α) (k : κ)
    (agora : ℕ) (rede : κ → α) : α × Cache κ α × Bool :=
  match cacheLookup c k agora with
  | some v => (v, c, false)
  | none => (rede k, ⟨(k, rede k, agora) :: c.entries⟩, true)

/-- A concrete non-empty search name for witnesses. -/
def nomeExemplo : String := "Silva"

/-- A concrete party acronym for witnesses. -/
def siglaPartidoExemplo : String := "XX"

/-- A concrete state acronym for witnesses. -/
def siglaUfExemplo : String := "SP"

/-- A concrete deputy for witnesses. -/
def deputadoExemplo1 : Deputado :=
  ⟨204528, nomeExemplo, siglaPartidoExemplo, siglaUfExemplo⟩

/-- A second concrete deputy, with a different identifier, for witnesses. -/
def deputadoExemplo2 : Deputado :=
  ⟨12345, nomeExemplo, siglaPartidoExemplo, siglaUfExemplo⟩

/-- An environment in which every request fails. -/
def oraculoErro : Oraculo :=
  ⟨fun _ _ => NetResult.erro, fun _ => NetResult.erro, fun _ => NetResult.erro⟩

/-- An environment in which expense requests succeed with no records while
proposition and profile requests fail. -/
def oraculoDespesasOk : Oraculo :=
  ⟨fun _ _ => NetResult.ok ⟨some []⟩, fun _ => NetResult.erro, fun _ => NetResult.erro⟩

/-- Claim C1: the aggregation engine maps the failure sentinel and the empty
list to total `0` with an empty table; otherwise every record's amount is
parsed, missing or unparsable amounts contribute `0` while the record is
kept, the total is the sum of the coerced amounts, and the cleaned table
keeps every original field and the original record order.  The conjunct on
a concrete input is the specification's worked example
`aggregate([{amount: "12.50"}, {amount: null}, {amount: "abc"}])`. -/
theorem C1_calcular_total_despesas :
    calcular_total_despesas none = (0, []) ∧
    calcular_total_despesas (some []) = (0, []) ∧
    (∀ l : List ExpenseRecord,
      (calcular_total_despesas (some l)).1 =
        (l.map (fun r => valorCoagido r.valorDocumento)).sum ∧
      (calcular_total_despesas (some l)).2 = l.map cleanRecord) ∧
    (∀ r : ExpenseRecord,
      (cleanRecord r).dataDocumento = r.dataDocumento ∧
      (cleanRecord r).tipoDespesa = r.tipoDespesa ∧
      (cleanRecord r).nomeFornecedor = r.nomeFornecedor ∧
      (cleanRecord r).valorDocumento = valorCoagido r.valorDocumento) ∧
    calcular_total_despesas (some
      [⟨"d1", "t1", "f1", AmountVal.str "12.50"⟩,
       ⟨"d2", "t2", "f2", AmountVal.null⟩,
       ⟨"d3", "t3", "f3", AmountVal.str "abc"⟩]) =
    ((25 : ℚ) / 2,
      [⟨"d1", "t1", "f1", (25 : ℚ) / 2⟩, ⟨"d2", "t2", "f2", 0⟩,
       ⟨"d3", "t3", "f3", 0⟩]) := by
  refine ⟨rfl, rfl, ?_, ?_, ?_⟩
  · intro l
    cases l with
    | nil => simp [calcular_total_despesas]
    | cons r rs =>
        constructor
        · show ((((r :: rs).map cleanRecord).map CleanedRecord.valorDocumento)).sum = _
          have hc : CleanedRecord.valorDocumento ∘ cleanRecord =
              fun s : ExpenseRecord => valorCoagido s.valorDocumento := rfl
          rw [List.map_map, hc]
        · rfl
  · intro r
    exact ⟨rfl, rfl, rfl, rfl⟩
  · simp +decide [calcular_total_despesas, cleanRecord, valorCoagido, parseDecimal,
      parseUnsigned, splitAtDot, digitsToNat]
    norm_num

theorem digitChar_isDigit (n : ℕ) : (digitChar n).isDigit = true := by
  have h : n % 10 < 10 := Nat.mod_lt _ (by norm_num)
  unfold digitChar
  generalize n % 10 = m at h ⊢
  interval_cases m <;> decide

theorem isDigit_sepSwap (c : Char) (h : c.isDigit = true) : sepSwap c = c := by
  have h1 : c ≠ ',' := by rintro rfl; exact absurd h (by decide)
  have h2 : c ≠ '.' := by rintro rfl; exact absurd h (by decide)
  simp [sepSwap, h1, h2]

theorem isDigit_ne (c : Char) (h : c.isDigit = true) (d : Char)
    (hd : d.isDigit = false) : c ≠ d := by
  rintro rfl
  rw [h] at hd
  exact Bool.noConfusion hd

theorem mem_natDigitsRevAux :
    ∀ (fuel n : ℕ), ∀ c ∈ natDigitsRevAux fuel n, c.isDigit = true := by
  intro fuel
  induction fuel with
  | zero => intro n c hc; simp [natDigitsRevAux] at hc
  | succ f ih =>
      intro n c hc
      cases n with
      | zero => simp [natDigitsRevAux] at hc
      | succ m =>
          simp only [natDigitsRevAux, List.mem_cons] at hc
          rcases hc with rfl | hc
          · exact digitChar_isDigit _
          · exact ih _ _ hc

theorem mem_lsdDigits (n : ℕ) : ∀ c ∈ lsdDigits n, c.isDigit = true := by
  intro c hc
  unfold lsdDigits at hc
  by_cases h : n = 0
  · simp [h] at hc; subst hc; decide
  · rw [if_neg h] at hc; exact mem_natDigitsRevAux _ _ _ hc

theorem lsdDigits_ne_nil (n : ℕ) : lsdDigits n ≠ [] := by
  unfold lsdDigits
  by_cases h : n = 0
  · simp [h]
  · rw [if_neg h]
    cases n with
    | zero => exact absurd rfl h
    | succ m => simp [natDigitsRev, natDigitsRevAux]

theorem mem_groupRev :
    ∀ (n : ℕ) (l : List Char), l.length ≤ n → ∀ c ∈ groupRev l, c ∈ l ∨ c = ',' := by
  intro n
  induction n with
  | zero =>
      intro l hl c hc
      rcases l with _ | ⟨a, r⟩
      · simp [groupRev] at hc
      · simp at hl
  | succ n ih =>
      intro l hl c hc
      rcases l with _ | ⟨a, _ | ⟨b, _ | ⟨d, _ | ⟨e, rest⟩⟩⟩⟩
      · simp [groupRev] at hc
      · simp only [groupRev] at hc; exact Or.inl hc
      · simp only [groupRev] at hc; exact Or.inl hc
      · simp only [groupRev] at hc; exact Or.inl hc
      · simp only [groupRev, List.mem_cons] at hc
        rcases hc with rfl | rfl | rfl | rfl | hc
        · simp
        · simp
        · simp
        · exact Or.inr rfl
        · rcases ih (e :: rest) (by simp at hl ⊢; omega) c hc with h | h
          · simp at h ⊢; tauto
          · exact Or.inr h

theorem gruposValidosRev_groupRev :
    ∀ (n : ℕ) (l : List Char), l.length ≤ n → l ≠ [] →
      (∀ c ∈ l, c.isDigit = true) →
      gruposValidosRev ((groupRev l).map sepSwap) = true := by
  intro n
  induction n with
  | zero =>
      intro l hl hne _
      rcases l with _ | ⟨a, r⟩
      · exact absurd rfl hne
      · simp at hl
  | succ n ih =>
      intro l hl hne hdig
      rcases l with _ | ⟨a, _ | ⟨b, _ | ⟨c, _ | ⟨d, rest⟩⟩⟩⟩
      · exact absurd rfl hne
      · have ha := hdig a (by simp)
        simp [groupRev, gruposValidosRev, isDigit_sepSwap a ha, ha]
      · have ha := hdig a (by simp)
        have hb := hdig b (by simp)
        simp [groupRev, gruposValidosRev, isDigit_sepSwap a ha, isDigit_sepSwap b hb, ha, hb]
      · have ha := hdig a (by simp)
        have hb := hdig b (by simp)
        have hc := hdig c (by simp)
        simp [groupRev, gruposValidosRev, isDigit_sepSwap a ha, isDigit_sepSwap b hb,
          isDigit_sepSwap c hc, ha, hb, hc]
      · have ha := hdig a (by simp)
        have hb := hdig b (by simp)
        have hc := hdig c (by simp)
        have hrec := ih (d :: rest) (by simp at hl ⊢; omega) (by simp)
          (fun x hx => hdig x (by simp at hx ⊢; tauto))
        simp only [groupRev, List.map_cons, isDigit_sepSwap a ha, isDigit_sepSwap b hb,
          isDigit_sepSwap c hc]
        have hcomma : sepSwap ',' = '.' := by decide
        rw [hcomma]
        simp only [gruposValidosRev, ha, hb, hc, hrec]
        decide

theorem numeroValido_reverse_eq (l : List Char) (b a c : Char) (resto : List Char)
    (h : l.reverse = b :: a :: c :: resto) :
    numeroValido l = (a.isDigit && b.isDigit && (c == ',') && gruposValidosRev resto) := by
  unfold numeroValido
  rw [h]

theorem numeroValido_pyUnsigned (ip fp : ℕ) :
    numeroValido ((pyUnsigned ip fp).map sepSwap) = true := by
  have hrev : ((pyUnsigned ip fp).map sepSwap).reverse =
      digitChar fp :: digitChar (fp / 10) :: ',' ::
        (groupRev (lsdDigits ip)).map sepSwap := by
    unfold pyUnsigned
    rw [List.map_append, List.reverse_append, List.map_reverse, List.reverse_reverse]
    have hdot : sepSwap '.' = ',' := by decide
    simp [hdot, isDigit_sepSwap _ (digitChar_isDigit (fp / 10)),
      isDigit_sepSwap _ (digitChar_isDigit fp)]
  rw [numeroValido_reverse_eq _ _ _ _ _ hrev]
  have h1 := digitChar_isDigit (fp / 10)
  have h2 := digitChar_isDigit fp
  have h3 := gruposValidosRev_groupRev (lsdDigits ip).length (lsdDigits ip) le_rfl
    (lsdDigits_ne_nil ip) (mem_lsdDigits ip)
  rw [h1, h2, h3]
  decide

theorem replace_chain (l : List Char) (hx : 'X' ∉ l) :
    replaceCharL (replaceCharL (replaceCharL l ',' 'X') '.' ',') 'X' '.' =
      l.map sepSwap := by
  unfold replaceCharL
  rw [List.map_map, List.map_map]
  apply List.map_congr_left
  intro c hc
  have hcx : c ≠ 'X' := fun h => hx (h ▸ hc)
  by_cases h1 : c = ','
  · subst h1; decide
  · by_cases h2 : c = '.'
    · subst h2; decide
    · simp [Function.comp, sepSwap, h1, h2, hcx]

theorem not_X_mem_pyFmt (v : ℚ) : 'X' ∉ pyFmt v := by
  intro hmem
  unfold pyFmt pyUnsigned at hmem
  have hdig : ('X').isDigit = false := by decide
  rcases List.mem_append.mp hmem with h | h
  · by_cases hv : v < 0
    · rw [if_pos hv] at h; simp at h
    · rw [if_neg hv] at h; simp at h
  · rcases List.mem_append.mp h with h | h
    · have := mem_groupRev _ _ le_rfl _ (List.mem_reverse.mp h)
      rcases this with h' | h'
      · exact absurd rfl (isDigit_ne _ (mem_lsdDigits _ _ h') _ hdig)
      · exact absurd h' (by decide)
    · simp only [List.mem_cons, List.mem_singleton] at h
      rcases h with h | h | h
      · exact absurd h (by decide)
      · exact absurd rfl (isDigit_ne _ (h ▸ digitChar_isDigit _) _ hdig)
      · simp at h
        exact absurd rfl (isDigit_ne _ (h ▸ digitChar_isDigit _) _ hdig)

/-- Claim C4: the currency formatter's deterministic fallback produces, for
every rational amount (negative, zero or fractional), a string of the shape
`R$ <integer part grouped by .>,<2-digit fraction>` with the sign preserved;
in particular `formatar_moeda 0 = "R$ 0,00"` and
`formatar_moeda (-5) = "R$ -5,00"`.  The function is total, so the
formatting never fails. -/
theorem C4_formatar_moeda :
    formatar_moeda 0 = "R$ 0,00" ∧
    formatar_moeda (-5) = "R$ -5,00" ∧
    ∀ v : ℚ, matchesCurrencyPattern (formatar_moeda v) = true := by
  refine ⟨?_, ?_, ?_⟩
  · norm_num [formatar_moeda, pyFmt, roundHalfEven, Int.fract]
    decide
  · norm_num [formatar_moeda, pyFmt, roundHalfEven, Int.fract]
    decide
  · intro v
    have hx : 'X' ∉ ('R' :: '$' :: ' ' :: pyFmt v) := by
      intro h
      simp only [List.mem_cons] at h
      rcases h with h | h | h | h
      · exact absurd h (by decide)
      · exact absurd h (by decide)
      · exact absurd h (by decide)
      · exact not_X_mem_pyFmt v h
    have hform : formatar_moeda v =
        String.mk (('R' :: '$' :: ' ' :: pyFmt v).map sepSwap) := by
      unfold formatar_moeda
      rw [replace_chain _ hx]
    rw [hform]
    have hmap : ('R' :: '$' :: ' ' :: pyFmt v).map sepSwap =
        'R' :: '$' :: ' ' :: (pyFmt v).map sepSwap := by
      have h1 : sepSwap 'R' = 'R' := by decide
      have h2 : sepSwap '$' = '$' := by decide
      have h3 : sepSwap ' ' = ' ' := by decide
      simp only [List.map_cons, h1, h2, h3]
    unfold matchesCurrencyPattern
    show (((('R' :: '$' :: ' ' :: pyFmt v).map sepSwap).take 3 == ['R', '$', ' ']) &&
        corpoValido ((('R' :: '$' :: ' ' :: pyFmt v).map sepSwap).drop 3)) = true
    rw [hmap]
    simp only [List.take, List.drop]
    have hcorpo : corpoValido ((pyFmt v).map sepSwap) = true := by
      unfold pyFmt
      by_cases hv : v < 0
      · rw [if_pos hv]
        have hminus : sepSwap '-' = '-' := by decide
        simp only [List.singleton_append, List.map_cons, hminus]
        simp [corpoValido, numeroValido_pyUnsigned]
      · rw [if_neg hv]
        simp only [List.nil_append]
        simp [corpoValido, numeroValido_pyUnsigned]
    rw [hcorpo]
    decide

/-- Claim C2: for nonnegative totals, whenever the smaller total is zero the
analysis carries no numeric percentage (the source's `"N/A"`, and the tie
branch shows none), and whenever the smaller total is positive and the
totals differ, the percentage equals
`(larger - smaller) / smaller * 100`; the division is only ever performed
behind the positivity guard, so no division error can arise. -/
theorem C2_percentual_menor (total1 total2 : ℚ) (h1 : 0 ≤ total1) (h2 : 0 ≤ total2) :
    (min total1 total2 = 0 → percentualDe (analise_despesas total1 total2) = none) ∧
    (0 < min total1 total2 → total1 ≠ total2 →
      percentualDe (analise_despesas total1 total2) =
        some ((max total1 total2 - min total1 total2) / min total1 total2 * 100)) := by
  constructor
  · intro hmin
    by_cases hgt : total2 < total1
    · have ht2 : total2 = 0 := by
        have h := min_eq_right (le_of_lt hgt)
        rw [h] at hmin
        exact hmin
      have hpos1 : 0 < total1 := ht2 ▸ hgt
      simp [analise_despesas, percentualDe, hgt, ht2, hpos1]
    · by_cases hlt : total1 < total2
      · have ht1 : total1 = 0 := by
          have h := min_eq_left (le_of_lt hlt)
          rw [h] at hmin
          exact hmin
        have hngt : ¬ total1 > total2 := by linarith
        have hpos2 : 0 < total2 := ht1 ▸ hlt
        have hnneg2 : ¬ total2 < 0 := not_lt.mpr h2
        simp [analise_despesas, percentualDe, hngt, hlt, ht1, hpos2, hnneg2]
      · have heq : total1 = total2 := le_antisymm (not_lt.mp hgt) (not_lt.mp hlt)
        simp [analise_despesas, percentualDe, heq]
  · intro hpos hne
    by_cases hgt : total2 < total1
    · have hminr : min total1 total2 = total2 := min_eq_right (le_of_lt hgt)
      have hmaxl : max total1 total2 = total1 := max_eq_left (le_of_lt hgt)
      have ht2 : 0 < total2 := by rw [hminr] at hpos; exact hpos
      simp [analise_despesas, percentualDe, hgt, ht2, hminr, hmaxl]
    · have hlt : total1 < total2 := lt_of_le_of_ne (not_lt.mp hgt) hne
      have hminl : min total1 total2 = total1 := min_eq_left (le_of_lt hlt)
      have hmaxr : max total1 total2 = total2 := max_eq_right (le_of_lt hlt)
      have ht1 : 0 < total1 := by rw [hminl] at hpos; exact hpos
      have hngt : ¬ total1 > total2 := by linarith
      simp [analise_despesas, percentualDe, hngt, hlt, ht1, hminl, hmaxr]

/-- Witness for claim C2, at the specification's scenario `10000` versus
`8000` (percentage `25` against the smaller total) and at `5` versus `0`
(percentage not applicable). -/
theorem C2_percentual_menor_witness :
    percentualDe (analise_despesas 10000 8000) = some 25 ∧
    percentualDe (analise_despesas 5 0) = none := by
  constructor
  · have h := (C2_percentual_menor 10000 8000 (by norm_num) (by norm_num)).2
      (by norm_num) (by norm_num)
    rw [h]
    norm_num
  · exact (C2_percentual_menor 5 0 (by norm_num) (by norm_num)).1 (by norm_num)

/-- Claim C8: the deputy with the strictly higher total is declared the
higher spender with the absolute difference reported, and exactly equal
totals produce the tie result with no winner. -/
theorem C8_vencedor_empate (total1 total2 : ℚ) :
    (total2 < total1 → analise_despesas total1 total2 =
      Analise.maior1 (total1 - total2)
        (if total2 > 0 then some ((total1 - total2) / total2 * 100) else none)) ∧
    (total1 < total2 → analise_despesas total1 total2 =
      Analise.maior2 (total2 - total1)
        (if total1 > 0 then some ((total2 - total1) / total1 * 100) else none)) ∧
    (total1 = total2 → analise_despesas total1 total2 = Analise.empate) := by
  refine ⟨?_, ?_, ?_⟩
  · intro h
    have habs : |total1 - total2| = total1 - total2 := abs_of_nonneg (by linarith)
    simp [analise_despesas, h, habs]
  · intro h
    have habs : |total1 - total2| = total2 - total1 := by
      rw [abs_sub_comm]
      exact abs_of_nonneg (by linarith)
    have hngt : ¬ total1 > total2 := by linarith
    simp [analise_despesas, h, hngt, habs]
  · intro h
    simp [analise_despesas, h]

/-- Witness for claim C8: the specification's scenarios `10000` versus
`8000` (first deputy declared higher spender, difference `2000`, percentage
`25`) and `5000` versus `5000` (tie). -/
theorem C8_vencedor_empate_witness :
    analise_despesas 10000 8000 = Analise.maior1 2000 (some 25) ∧
    analise_despesas 5000 5000 = Analise.empate := by
  constructor
  · have h := (C8_vencedor_empate 10000 8000).1 (by norm_num)
    rw [h]
    norm_num
  · exact (C8_vencedor_empate 5000 5000).2.2 rfl

/-- Claim C5: the deputy search returns the empty sequence for an empty name
without issuing a request, turns a request failure into the `none` sentinel
rather than raising (the embedding is a total function), and the sentinel is
distinguishable from a successful call returning zero results. -/
theorem C5_buscar_deputados (nome : String) (resp : NetResult (ApiJson (List Deputado))) :
    (nome = "" →
      buscar_deputados nome resp = some [] ∧ buscar_deputados_requisicoes nome = 0) ∧
    (nome ≠ "" → resp = NetResult.erro → buscar_deputados nome resp = none) ∧
    (nome ≠ "" → ∀ j, buscar_deputados nome (NetResult.ok j) ≠ none) ∧
    (nome ≠ "" →
      buscar_deputados nome NetResult.erro ≠
        buscar_deputados nome (NetResult.ok ⟨some []⟩)) := by
  refine ⟨?_, ?_, ?_, ?_⟩
  · intro h
    exact ⟨by simp [buscar_deputados, h], by simp [buscar_deputados_requisicoes, h]⟩
  · intro h herr
    subst herr
    simp [buscar_deputados, h]
  · intro h j
    simp [buscar_deputados, h]
  · intro h
    simp [buscar_deputados, h]

/-- Witness for claim C5: the empty name short-circuits; a failing request
for a non-empty name yields the sentinel. -/
theorem C5_buscar_deputados_witness :
    (buscar_deputados "" NetResult.erro = some [] ∧
      buscar_deputados_requisicoes "" = 0) ∧
    buscar_deputados nomeExemplo NetResult.erro = none := by
  constructor
  · exact (C5_buscar_deputados "" NetResult.erro).1 rfl
  · exact (C5_buscar_deputados nomeExemplo NetResult.erro).2.1 (by decide) rfl

/-- Claim C6: when both selected deputies share an identifier the
orchestrator halts with the validation error before issuing any request,
whatever the other fields of the two selections are. -/
theorem C6_mesmo_deputado (d1 d2 : Deputado) (ano : ℤ) (mes : Option ℤ)
    (o : Oraculo) (h : d1.id = d2.id) :
    comparar_deputados (some d1) (some d2) ano mes o =
      (Resultado.mesmoDeputado, []) := by
  simp [comparar_deputados, h]

/-- Witness for claim C6: the same deputy selected twice halts with the
validation error and an empty request log. -/
theorem C6_mesmo_deputado_witness :
    comparar_deputados (some deputadoExemplo1) (some deputadoExemplo1) 2023 none
      oraculoErro = (Resultado.mesmoDeputado, []) :=
  C6_mesmo_deputado deputadoExemplo1 deputadoExemplo1 2023 none oraculoErro rfl

/-- Claim C7: the `mes` query parameter is present in the expense request
exactly when a month was given and lies in `[1, 12]`; an absent or
out-of-range month leaves the parameter out, meaning the whole year.
Python's truthiness test also excludes `0`, which is already outside the
range. -/
theorem C7_parametro_mes (ano : ℤ) (mes : Option ℤ) (limite : ℤ) (m : ℤ) :
    (chaveMes, ParamVal.int m) ∈ obter_despesas_params ano mes limite ↔
      mes = some m ∧ 1 ≤ m ∧ m ≤ 12 := by
  rcases mes with _ | m'
  · simp +decide [obter_despesas_params, Prod.ext_iff, chaveMes, chaveAno,
      chaveOrdem, chaveOrdenarPor, chaveItens]
  · show (chaveMes, ParamVal.int m) ∈
        (if m' ≠ 0 ∧ 1 ≤ m' ∧ m' ≤ 12 then
          [(chaveAno, ParamVal.int ano), (chaveOrdem, ParamVal.str ordemDESC),
            (chaveOrdenarPor, ParamVal.str chaveDataDocumento),
            (chaveItens, ParamVal.int limite)] ++ [(chaveMes, ParamVal.int m')]
        else
          [(chaveAno, ParamVal.int ano), (chaveOrdem, ParamVal.str ordemDESC),
            (chaveOrdenarPor, ParamVal.str chaveDataDocumento),
            (chaveItens, ParamVal.int limite)]) ↔ _
    by_cases hm : m' ≠ 0 ∧ 1 ≤ m' ∧ m' ≤ 12
    · rw [if_pos hm]
      simp +decide [Prod.ext_iff, chaveMes, chaveAno, chaveOrdem,
        chaveOrdenarPor, chaveItens]
      constructor
      · rintro rfl
        exact ⟨rfl, hm.2.1, hm.2.2⟩
      · rintro ⟨h, _, _⟩
        exact h.symm
    · rw [if_neg hm]
      simp +decide [Prod.ext_iff, chaveMes, chaveAno, chaveOrdem,
        chaveOrdenarPor, chaveItens]
      rintro rfl
      omega

/-- Witness for claim C7: month `5` is sent; month `13` is omitted. -/
theorem C7_parametro_mes_witness :
    (chaveMes, ParamVal.int 5) ∈ obter_despesas_params 2023 (some 5) 1000 ∧
    (chaveMes, ParamVal.int 13) ∉ obter_despesas_params 2023 (some 13) 1000 := by
  constructor
  · exact (C7_parametro_mes 2023 (some 5) 1000 5).mpr ⟨rfl, by norm_num, by norm_num⟩
  · intro hmem
    have h := (C7_parametro_mes 2023 (some 13) 1000 13).mp hmem
    exact absurd h.2.2 (by norm_num)

/-- Claim C3: with two distinct deputies selected, a sentinel from either
expense fetch makes the whole comparison halt with the connectivity error,
so no comparison result is produced; when both expense fetches succeed the
comparison completes, a failed proposition fetch only degrades that deputy's
proposition count to `0`, and a failed profile fetch only degrades that
deputy's profile to the empty structure. -/
theorem C3_falha_despesas_fatal (d1 d2 : Deputado) (ano : ℤ) (mes : Option ℤ)
    (o : Oraculo) (hid : d1.id ≠ d2.id) :
    ((obter_despesas_deputado o d1.id ano mes 1000 = none ∨
        obter_despesas_deputado o d2.id ano mes 1000 = none) →
      (comparar_deputados (some d1) (some d2) ano mes o).1 = Resultado.erroConexao) ∧
    (obter_despesas_deputado o d1.id ano mes 1000 ≠ none →
      obter_despesas_deputado o d2.id ano mes 1000 ≠ none →
      (comparar_deputados (some d1) (some d2) ano mes o).1.eComparacao = true ∧
      (o.proposicoes d1.id = NetResult.erro →
        (comparar_deputados (some d1) (some d2) ano mes o).1.numProp1 = some 0) ∧
      (o.proposicoes d2.id = NetResult.erro →
        (comparar_deputados (some d1) (some d2) ano mes o).1.numProp2 = some 0) ∧
      (o.detalhes d1.id = NetResult.erro →
        (comparar_deputados (some d1) (some d2) ano mes o).1.perfil1 =
          some Detalhes.vazio) ∧
      (o.detalhes d2.id = NetResult.erro →
        (comparar_deputados (some d1) (some d2) ano mes o).1.perfil2 =
          some Detalhes.vazio)) := by
  constructor
  · intro h
    simp [comparar_deputados, hid, h]
  · intro hne1 hne2
    have hcond : ¬ (obter_despesas_deputado o d1.id ano mes 1000 = none ∨
        obter_despesas_deputado o d2.id ano mes 1000 = none) := by
      rintro (h | h)
      · exact hne1 h
      · exact hne2 h
    refine ⟨?_, ?_, ?_, ?_, ?_⟩
    · simp [comparar_deputados, hid, hcond, Resultado.eComparacao]
    · intro hp
      simp [comparar_deputados, hid, hcond, Resultado.numProp1,
        obter_proposicoes_deputado, hp]
    · intro hp
      simp [comparar_deputados, hid, hcond, Resultado.numProp2,
        obter_proposicoes_deputado, hp]
    · intro hp
      simp [comparar_deputados, hid, hcond, Resultado.perfil1,
        obter_detalhes_deputado, hp]
    · intro hp
      simp [comparar_deputados, hid, hcond, Resultado.perfil2,
        obter_detalhes_deputado, hp]

/-- Witness for claim C3: an all-failing environment halts with the
connectivity error; an environment whose expense requests succeed completes
the comparison even though proposition and profile requests fail, with
proposition counts `0` and empty profiles. -/
theorem C3_falha_despesas_fatal_witness :
    (comparar_deputados (some deputadoExemplo1) (some deputadoExemplo2) 2023 none
      oraculoErro).1 = Resultado.erroConexao ∧
    (comparar_deputados (some deputadoExemplo1) (some deputadoExemplo2) 2023 none
      oraculoDespesasOk).1.eComparacao = true ∧
    (comparar_deputados (some deputadoExemplo1) (some deputadoExemplo2) 2023 none
      oraculoDespesasOk).1.numProp1 = some 0 ∧
    (comparar_deputados (some deputadoExemplo1) (some deputadoExemplo2) 2023 none
      oraculoDespesasOk).1.perfil1 = some Detalhes.vazio := by
  have hid : deputadoExemplo1.id ≠ deputadoExemplo2.id := by decide
  have h1 := (C3_falha_despesas_fatal deputadoExemplo1 deputadoExemplo2 2023 none
    oraculoErro hid).1 (Or.inl rfl)
  have h2 := (C3_falha_despesas_fatal deputadoExemplo1 deputadoExemplo2 2023 none
    oraculoDespesasOk hid).2 (by decide) (by decide)
  exact ⟨h1, h2.1, h2.2.1 rfl, h2.2.2.2.1 rfl⟩

/-- Claim C9 (cache semantics modelled from the specification, since
`st.cache_data` is library code): a miss at time `t0` calls the network and
stores the result; a second call with the same key before the time-to-live
has elapsed returns the same value without a network call; the first call
at or after expiry is a miss again and calls the network. -/
theorem C9_cache_ttl {κ α : Type} [DecidableEq κ] (c : Cache κ α) (k : κ)
    (t0 t1 t2 : ℕ) (rede : κ → α) (h0 : cacheLookup c k t0 = none)
    (h1 : t1 < t0 + ttlSegundos) (h2 : t0 + ttlSegundos ≤ t2) :
    (chamadaMemoizada c k t0 rede).2.2 = true ∧
    (chamadaMemoizada (chamadaMemoizada c k t0 rede).2.1 k t1 rede).1 =
      (chamadaMemoizada c k t0 rede).1 ∧
    (chamadaMemoizada (chamadaMemoizada c k t0 rede).2.1 k t1 rede).2.2 = false ∧
    (chamadaMemoizada (chamadaMemoizada c k t0 rede).2.1 k t2 rede).2.2 = true := by
  have hc1 : (chamadaMemoizada c k t0 rede).2.1 =
      ⟨(k, rede k, t0) :: c.entries⟩ := by
    simp [chamadaMemoizada, h0]
  have hl1 : cacheLookup (⟨(k, rede k, t0) :: c.entries⟩ : Cache κ α) k t1 =
      some (rede k) := by
    simp [cacheLookup, List.find?_cons, h1]
  have hl2 : cacheLookup (⟨(k, rede k, t0) :: c.entries⟩ : Cache κ α) k t2 =
      none := by
    have hge : ¬ t2 < t0 + ttlSegundos := by omega
    simp [cacheLookup, List.find?_cons, hge]
  refine ⟨?_, ?_, ?_, ?_⟩
  · simp [chamadaMemoizada, h0]
  · rw [hc1]
    simp [chamadaMemoizada, h0, hl1]
  · rw [hc1]
    simp [chamadaMemoizada, hl1]
  · rw [hc1]
    simp [chamadaMemoizada, hl2]

/-- Witness for claim C9 on a concrete key, clock and operation. -/
theorem C9_cache_ttl_witness :
    (chamadaMemoizada (⟨[]⟩ : Cache ℕ ℕ) 42 0 (fun _ => 7)).2.2 = true ∧
    (chamadaMemoizada (chamadaMemoizada (⟨[]⟩ : Cache ℕ ℕ) 42 0 (fun _ => 7)).2.1
      42 10 (fun _ => 7)).1 =
      (chamadaMemoizada (⟨[]⟩ : Cache ℕ ℕ) 42 0 (fun _ => 7)).1 ∧
    (chamadaMemoizada (chamadaMemoizada (⟨[]⟩ : Cache ℕ ℕ) 42 0 (fun _ => 7)).2.1
      42 10 (fun _ => 7)).2.2 = false ∧
    (chamadaMemoizada (chamadaMemoizada (⟨[]⟩ : Cache ℕ ℕ) 42 0 (fun _ => 7)).2.1
      42 3600 (fun _ => 7)).2.2 = true :=
  C9_cache_ttl ⟨[]⟩ 42 0 10 3600 (fun _ => 7) rfl (by norm_num [ttlSegundos])
    (by norm_num [ttlSegundos])

/-- Claim C10 (cache semantics modelled from the specification): the failure
sentinel of the deputy search is memoized exactly like a success, so after a
failed call every further call with the same name inside the time-to-live
window returns the cached sentinel without a new request. -/
theorem C10_sentinela_memoizada (c : Cache String (Option (List Deputado)))
    (nome : String) (t0 t1 : ℕ)
    (rede : String → NetResult (ApiJson (List Deputado)))
    (h0 : cacheLookup c nome t0 = none) (h1 : t1 < t0 + ttlSegundos)
    (herr : rede nome = NetResult.erro) (hnome : nome ≠ "") :
    (chamadaMemoizada c nome t0 (fun n => buscar_deputados n (rede n))).1 = none ∧
    (chamadaMemoizada c nome t0 (fun n => buscar_deputados n (rede n))).2.2 = true ∧
    (chamadaMemoizada
        (chamadaMemoizada c nome t0 (fun n => buscar_deputados n (rede n))).2.1
        nome t1 (fun n => buscar_deputados n (rede n))).1 = none ∧
    (chamadaMemoizada
        (chamadaMemoizada c nome t0 (fun n => buscar_deputados n (rede n))).2.1
        nome t1 (fun n => buscar_deputados n (rede n))).2.2 = false := by
  have hval : buscar_deputados nome (rede nome) = none := by
    rw [herr]
    simp [buscar_deputados, hnome]
  have hbase := C9_cache_ttl c nome t0 t1 (t0 + ttlSegundos)
    (fun n => buscar_deputados n (rede n)) h0 h1 le_rfl
  refine ⟨?_, hbase.1, ?_, hbase.2.2.1⟩
  · have : (chamadaMemoizada c nome t0 (fun n => buscar_deputados n (rede n))).1 =
        buscar_deputados nome (rede nome) := by
      simp [chamadaMemoizada, h0]
    rw [this, hval]
  · rw [hbase.2.1]
    have : (chamadaMemoizada c nome t0 (fun n => buscar_deputados n (rede n))).1 =
        buscar_deputados nome (rede nome) := by
      simp [chamadaMemoizada, h0]
    rw [this, hval]

/-- Witness for claim C10: a failed search for a concrete name is cached and
replayed without a new request half an hour later. -/
theorem C10_sentinela_memoizada_witness :
    (chamadaMemoizada (⟨[]⟩ : Cache String (Option (List Deputado))) nomeExemplo 0
      (fun n => buscar_deputados n NetResult.erro)).1 = none ∧
    (chamadaMemoizada (⟨[]⟩ : Cache String (Option (List Deputado))) nomeExemplo 0
      (fun n => buscar_deputados n NetResult.erro)).2.2 = true ∧
    (chamadaMemoizada
        (chamadaMemoizada (⟨[]⟩ : Cache String (Option (List Deputado))) nomeExemplo 0
          (fun n => buscar_deputados n NetResult.erro)).2.1
        nomeExemplo 1800 (fun n => buscar_deputados n NetResult.erro)).1 = none ∧
    (chamadaMemoizada
        (chamadaMemoizada (⟨[]⟩ : Cache String (Option (List Deputado))) nomeExemplo 0
          (fun n => buscar_deputados n NetResult.erro)).2.1
        nomeExemplo 1800 (fun n => buscar_deputados n NetResult.erro)).2.2 = false :=
  C10_sentinela_memoizada ⟨[]⟩ nomeExemplo 0 1800 (fun _ => NetResult.erro) rfl
    (by norm_num [ttlSegundos]) rfl (by decide)

end TGEapp
